import Mathlib

/-
Verification of the adaptive usage-polling / multi-schema normalization core
of the claude-tokens GNOME extension (extension.js).

The JavaScript is shallowly embedded: JSON values are an inductive type,
JS numbers are modelled as exact integers (claims only exercise integer
arithmetic), and the duck-typed field accesses, nullish coalescing, regex
tests and parseInt coercions of the source are reproduced by executable
Lean functions that mirror the source expressions one-for-one.
-/

set_option maxRecDepth 4000

namespace ClaudeTokens

/-- A parsed JSON value (the input type of the normalizer and identity
resolver).  JS numbers are modelled as exact integers. -/
inductive Json where
  | null : Json
  | bool : Bool → Json
  | num : Int → Json
  | str : String → Json
  | arr : List Json → Json
  | obj : List (String × Json) → Json

/-- JS property access obj.k for the fixed key names used by the source:
defined only on objects; on every other value those keys are undefined. -/
def Json.get? : Json → String → Option Json
  | .obj fs, k => fs.lookup k
  | _, _ => none

/-- Squash a nullish value (JS null, or undefined = Option.none) to none,
modelling the left operand test of the JS nullish coalescing operator. -/
def nnOpt : Option Json → Option Json
  | some .null => none
  | x => x

/-- obj?.k as the left operand of a nullish chain: some v iff the property
is present and non-null. -/
def nnGet (j : Json) (k : String) : Option Json := nnOpt (j.get? k)

/-- JS truthiness of a value. -/
def truthy : Json → Bool
  | .null => false
  | .bool b => b
  | .num n => n != 0
  | .str s => s != ""
  | .arr _ => true
  | .obj _ => true

/-- JS falsiness of a possibly-undefined value (the `!x` tests of the source). -/
def jsFalsyOpt : Option Json → Bool
  | none => true
  | some v => !truthy v

mutual

/-- JS ToString on a value (String(v)): arrays join their elements with
commas, null elements of an array stringify to the empty string, objects
stringify to "[object Object]". -/
def jsToString : Json → String
  | .null => "null"
  | .bool b => if b then "true" else "false"
  | .num n => toString n
  | .str s => s
  | .obj _ => "[object Object]"
  | .arr xs => jsArrToString xs

/-- Array.prototype.toString: elements joined with ",", null rendered "". -/
def jsArrToString : List Json → String
  | [] => ""
  | [Json.null] => ""
  | [x] => jsToString x
  | Json.null :: xs => "," ++ jsArrToString xs
  | x :: xs => jsToString x ++ "," ++ jsArrToString xs

end

/-- ToString of a possibly-undefined value (String(undefined) = "undefined"). -/
def jsToStringU : Option Json → String
  | none => "undefined"
  | some v => jsToString v

/-- The whitespace characters skipped by JS parseInt / String.prototype.trim. -/
def jsIsSpace (c : Char) : Bool :=
  c == ' ' || c == '\t' || c == '\n' || c == '\r' || c == '\x0b' || c == '\x0c' ||
  c == ' ' || c == ' ' || c == ' ' || c == '﻿'

/-- String.prototype.trim. -/
def jsTrim (s : String) : String :=
  String.mk (((s.toList.dropWhile jsIsSpace).reverse.dropWhile jsIsSpace).reverse)

/-- Decimal value of a digit list. -/
def digitsVal (ds : List Char) : Nat := ds.foldl (fun a c => a * 10 + (c.toNat - 48)) 0

/-- JS parseInt(s, 10): skip leading whitespace, optional sign, longest
leading digit run; none models NaN. -/
def parseIntStr (s : String) : Option Int :=
  match s.toList.dropWhile jsIsSpace with
  | '-' :: t =>
      let ds := t.takeWhile Char.isDigit
      if ds.isEmpty then none else some (-(digitsVal ds : Int))
  | '+' :: t =>
      let ds := t.takeWhile Char.isDigit
      if ds.isEmpty then none else some ((digitsVal ds : Int))
  | t =>
      let ds := t.takeWhile Char.isDigit
      if ds.isEmpty then none else some ((digitsVal ds : Int))

/-- _safeInt of the source, on a possibly-undefined argument:
parseInt(v, 10) with a fallback of 0 when the result is not finite. -/
def safeIntOpt (o : Option Json) : Int := (parseIntStr (jsToStringU o)).getD 0

/-- _safeInt of the source on a defined argument. -/
def safeInt (v : Json) : Int := safeIntOpt (some v)

/-- Object.values(v) for a non-array argument (arrays are taken apart
directly by the source before this is reached): own enumerable values. -/
def jsValues : Json → List Json
  | .obj fs => fs.map Prod.snd
  | .arr xs => xs
  | .str s => s.toList.map (fun c => .str c.toString)
  | _ => []

/-- Object.entries(v): own enumerable key/value pairs. -/
def jsEntries : Json → List (String × Json)
  | .obj fs => fs
  | .arr xs => xs.enum.map (fun p => (toString p.1, p.2))
  | .str s => s.toList.enum.map (fun p => (toString p.1, .str p.2.toString))
  | _ => []

/-- v?.[i] indexing used on the memberships list. -/
def jsIndex : Json → Nat → Option Json
  | .arr xs, i => xs.get? i
  | .str s, i => (s.toList.get? i).map (fun c => .str c.toString)
  | .obj fs, i => fs.lookup (toString i)
  | _, _ => none

/-- ASCII lower-casing of one character; non-ASCII characters are left
alone, matching the simple canonicalization of case-insensitive JS regexes
without the unicode flag (the ASCII barrier rule). -/
def asciiLowerChar (c : Char) : Char :=
  if 'A' ≤ c ∧ c ≤ 'Z' then Char.ofNat (c.toNat + 32) else c

/-- ASCII lower-casing of a string. -/
def asciiLower (s : String) : String := String.mk (s.toList.map asciiLowerChar)

/-- One element of a regex alternative: a literal character or the dot. -/
inductive PatElem where
  | lit : Char → PatElem
  | dot : PatElem

/-- The JS regex dot (without the s flag) matches anything but one of the
four LineTerminator characters LF, CR, U+2028 and U+2029; in particular it
does match an ordinary space. -/
def jsDotMatch (c : Char) : Bool :=
  c != '\n' && c != '\r' && c != '\u2028' && c != '\u2029'

/-- Match a pattern against a prefix of the haystack. -/
def patAt : List PatElem → List Char → Bool
  | [], _ => true
  | _ :: _, [] => false
  | .lit d :: ps, c :: cs => (c == d) && patAt ps cs
  | .dot :: ps, c :: cs => jsDotMatch c && patAt ps cs

/-- Match a pattern at some position of the haystack (RegExp.test of a
single alternative). -/
def patFind (p : List PatElem) : List Char → Bool
  | [] => patAt p []
  | c :: cs => patAt p (c :: cs) || patFind p cs

/-- A literal (dot-free) alternative. -/
def litPat (s : String) : List PatElem := s.toList.map PatElem.lit

/-- RegExp.test for an alternation of patterns with the i flag, applied to
the JS string coercion of the tested value. -/
def testRe (alts : List (List PatElem)) (s : String) : Bool :=
  alts.any (fun p => patFind p (asciiLower s).toList)

/-- The alternative 5.hour (literal 5, any non-terminator, literal hour). -/
def pat5DotHour : List PatElem := [PatElem.lit '5', PatElem.dot] ++ litPat "hour"

/-- Schema A session test: the regex 5.hour|5hour|window with flag i. -/
def testSessionA (s : String) : Bool :=
  testRe [pat5DotHour, litPat "5hour", litPat "window"] s

/-- Weekly test: the regex week with flag i. -/
def testWeek (s : String) : Bool := testRe [litPat "week"] s

/-- Schema B session test: the regex 5.hour|5hour|session|window with flag i. -/
def testSessionB (s : String) : Bool :=
  testRe [pat5DotHour, litPat "5hour", litPat "session", litPat "window"] s

/-- Schema C key test: the regex 5.?hour with flag i, as an alternation. -/
def testFiveHourC (s : String) : Bool := testRe [pat5DotHour, litPat "5hour"] s

/-- Schema C field selector: the regex used with flag i. -/
def testUsed (s : String) : Bool := testRe [litPat "used"] s

/-- Schema C field selector: the regex limit|total with flag i. -/
def testLimitTotal (s : String) : Bool := testRe [litPat "limit", litPat "total"] s

/-- One canonical quota window of the snapshot: the sessionUsed/sessionLimit
(or weekly) locals of _applyUsageData together with the captured reset value. -/
structure Win where
  used : Int
  limit : Int
  resetAt : Option Json

/-- The pair of windows built by _applyUsageData. -/
structure Snapshot where
  session : Win
  weekly : Win

/-- The initial values of the six locals of _applyUsageData:
sessionUsed = 0, sessionLimit = 1, weeklyUsed = 0, weeklyLimit = 1,
sessionReset = weeklyReset = null. -/
def initSnap : Snapshot := ⟨⟨0, 1, none⟩, ⟨0, 1, none⟩⟩

/-- Schema A window-kind string of an entry: entry?.type ?? two quotes,
coerced to a string by the regex test. -/
def entryTypeA (e : Json) : String := jsToString ((nnGet e "type").getD (.str ""))

/-- Schema A remaining: _safeInt(entry?.remaining ?? entry?.tokens_remaining). -/
def entryRemA (e : Json) : Int :=
  safeIntOpt (nnGet e "remaining" <|> nnGet e "tokens_remaining")

/-- Schema A total: _safeInt(entry?.total ?? entry?.tokens_total ?? entry?.limit). -/
def entryTotA (e : Json) : Int :=
  safeIntOpt (nnGet e "total" <|> nnGet e "tokens_total" <|> nnGet e "limit")

/-- Schema A used = total - remaining. -/
def entryUsedA (e : Json) : Int := entryTotA e - entryRemA e

/-- Schema A reset: entry?.resetsAt ?? entry?.reset_at ?? entry?.resets_at ?? null. -/
def entryResetA (e : Json) : Option Json :=
  nnGet e "resetsAt" <|> nnGet e "reset_at" <|> nnGet e "resets_at"

/-- One Schema A loop iteration: the session pattern is tested first, the
weekly pattern only in the else-if branch. -/
def applyEntryA (st : Snapshot) (e : Json) : Snapshot :=
  if testSessionA (entryTypeA e) then
    { st with session := ⟨entryUsedA e, entryTotA e, entryResetA e⟩ }
  else if testWeek (entryTypeA e) then
    { st with weekly := ⟨entryUsedA e, entryTotA e, entryResetA e⟩ }
  else st

/-- The Schema A entry list: data?.rate_limit_status, when truthy, taken
as-is when an array, else its Object.values. -/
def entriesA (data : Json) : List Json :=
  match data.get? "rate_limit_status" with
  | none => []
  | some rl =>
      if truthy rl then
        match rl with
        | .arr xs => xs
        | v => jsValues v
      else []

/-- Schema A pass of _applyUsageData. -/
def schemaA (data : Json) (st : Snapshot) : Snapshot :=
  (entriesA data).foldl applyEntryA st

/-- Schema B window-kind string: q?.window ?? q?.type ?? q?.period ?? two
quotes, coerced to a string. -/
def entryTypeB (q : Json) : String :=
  jsToString ((nnGet q "window" <|> nnGet q "type" <|> nnGet q "period").getD (.str ""))

/-- Schema B used: _safeInt(q?.used ?? q?.tokens_used). -/
def entryUsedB (q : Json) : Int := safeIntOpt (nnGet q "used" <|> nnGet q "tokens_used")

/-- Schema B limit: _safeInt(q?.limit ?? q?.tokens_limit ?? q?.total). -/
def entryLimitB (q : Json) : Int :=
  safeIntOpt (nnGet q "limit" <|> nnGet q "tokens_limit" <|> nnGet q "total")

/-- Schema B reset: q?.reset_at ?? q?.resetsAt ?? null. -/
def entryResetB (q : Json) : Option Json := nnGet q "reset_at" <|> nnGet q "resetsAt"

/-- One Schema B loop iteration, again session first, weekly in else-if. -/
def applyEntryB (st : Snapshot) (q : Json) : Snapshot :=
  if testSessionB (entryTypeB q) then
    { st with session := ⟨entryUsedB q, entryLimitB q, entryResetB q⟩ }
  else if testWeek (entryTypeB q) then
    { st with weekly := ⟨entryUsedB q, entryLimitB q, entryResetB q⟩ }
  else st

/-- The Schema B list: data?.quotas ?? data?.limits ?? data?.usage_limits ?? [],
iterated only when it is an array. -/
def quotasB (data : Json) : List Json :=
  match (nnGet data "quotas" <|> nnGet data "limits" <|> nnGet data "usage_limits").getD (.arr []) with
  | .arr xs => xs
  | _ => []

/-- Schema B pass of _applyUsageData. -/
def schemaB (data : Json) (st : Snapshot) : Snapshot :=
  (quotasB data).foldl applyEntryB st

/-- One Schema C loop iteration over a key/value pair: the two if blocks of
the source are independent (not an else-if), and inside each the used and
limit|total selectors are independent. -/
def applyEntryC (st : Snapshot) (kv : String × Json) : Snapshot :=
  let st1 :=
    if testFiveHourC kv.1 then
      { st with session := { st.session with
          used := if testUsed kv.1 then safeInt kv.2 else st.session.used
          limit := if testLimitTotal kv.1 then safeInt kv.2 else st.session.limit } }
    else st
  if testWeek kv.1 then
    { st1 with weekly := { st1.weekly with
        used := if testUsed kv.1 then safeInt kv.2 else st1.weekly.used
        limit := if testLimitTotal kv.1 then safeInt kv.2 else st1.weekly.limit } }
  else st1

/-- Schema C pass of _applyUsageData: runs only when sessionLimit <= 1
still holds after Schemas A and B, and scans Object.entries(data ?? an
empty object). -/
def schemaC (data : Json) (st : Snapshot) : Snapshot :=
  if st.session.limit ≤ 1 then (jsEntries data).foldl applyEntryC st else st

/-- The snapshot-extraction part of _applyUsageData: Schema A, then Schema
B, then the guarded Schema C, starting from the default locals. -/
def normalize (data : Json) : Snapshot :=
  schemaC data (schemaB data (schemaA data initSnap))

/-- Math.round(a / b) for b > 0, as the floor of a/b + 1/2 (JS rounds
exact halves toward positive infinity). -/
def jsRound (a b : Int) : Int := Int.fdiv (2 * a + b) (2 * b)

/-- The percentage computation of the menu details (lines computing sPct
and wPct): round(used / limit * 100) when limit > 0, else 0. -/
def pctOf (w : Win) : Int := if 0 < w.limit then jsRound (w.used * 100) w.limit else 0

/-- The session percentage shown for a payload. -/
def sessionPct (data : Json) : Int := pctOf (normalize data).session

/-- The weekly percentage shown for a payload. -/
def weeklyPct (data : Json) : Int := pctOf (normalize data).weekly

/-- The GSettings values read by the core. -/
structure SettingsS where
  showNumbers : Bool
  pollIntervalIdle : Int
  pollIntervalActive : Int

/-- The persisted last-used counters compared against by the scheduler. -/
structure PollState where
  lastSessionUsed : Int
  lastWeeklyUsed : Int

/-- Everything _applyUsageData produces: the snapshot handed to the
presentation widgets, the delay passed to _scheduleNextPoll, and the new
last-used counters written back to settings. -/
structure ApplyResult where
  snapshot : Snapshot
  nextInterval : Int
  newState : PollState

/-- The full _applyUsageData: normalize the payload, then the adaptive
polling block (tokensMoved when either used counter strictly increased),
then store the new counters. -/
def applyUsageData (settings : SettingsS) (st : PollState) (data : Json) : ApplyResult :=
  let snap := normalize data
  let tokensMoved : Bool :=
    decide (st.lastSessionUsed < snap.session.used) ||
    decide (st.lastWeeklyUsed < snap.weekly.used)
  { snapshot := snap
    nextInterval := if tokensMoved then settings.pollIntervalActive else settings.pollIntervalIdle
    newState := ⟨snap.session.used, snap.weekly.used⟩ }

/-- The error message of the empty-credential early return of _get. -/
def noCredMsg : String := "No session cookie configured. Open Settings to add one."

/-- The error message for HTTP 401/403. -/
def authFailedMsg : String := "Authentication failed – check your session cookie."

/-- The error message for an unparseable body. -/
def invalidJsonMsg : String := "Invalid JSON from server"

/-- The error message when no organization id location resolves. -/
def orgNotFoundMsg : String := "Could not resolve organization ID."

/-- _cookieHeader: trim the configured cookie (an absent setting reads as
the empty string); an empty result means no header, otherwise the value is
normalized to the sessionKey= form. -/
def cookieHeader (cred : Option String) : Option String :=
  let key := jsTrim (cred.getD "")
  if key = "" then none
  else some (if key.startsWith "sessionKey=" then key else "sessionKey=" ++ key)

/-- Whether the JSON.parse of the body succeeds, and with which value. -/
inductive HttpBody where
  | invalid : HttpBody
  | json : Json → HttpBody

/-- The observable outcome of one Soup request: a transport-level failure
(the catch block) or a response with a status and body. -/
inductive HttpOutcome where
  | networkError : String → HttpOutcome
  | response : Int → HttpBody → HttpOutcome

/-- The response classification inside _get's callback: 401/403 first,
then the non-2xx check, then the JSON.parse guard. -/
def classifyResponse : HttpOutcome → Except String Json
  | .networkError m => .error ("Network error: " ++ m)
  | .response status body =>
      if status = 401 ∨ status = 403 then .error authFailedMsg
      else if status < 200 ∨ 300 ≤ status then .error ("HTTP " ++ toString status)
      else
        match body with
        | .invalid => .error invalidJsonMsg
        | .json j => .ok j

/-- Whether _get reaches send_and_read_async at all. -/
def requestIssued (cred : Option String) : Bool := (cookieHeader cred).isSome

/-- The value _get hands to its callback: the missing-credential early
return, or the classified response. -/
def getResult (cred : Option String) (outcome : HttpOutcome) : Except String Json :=
  match cookieHeader cred with
  | none => .error noCredMsg
  | some _ => classifyResponse outcome

/-- The identifier extraction of _fetchAccount once the memberships list
has been chosen: memberships?.[0]?.organization ?? ...?.workspace, then
org?.uuid ?? org?.id ?? data?.id, then (when that is falsy) the alternate
locations organization_uuid and default_organization?.uuid, with a final
falsiness check. -/
def resolveOrgFrom (memberships : Json) (data : Json) : Option Json :=
  let mem0 := nnOpt (jsIndex memberships 0)
  let org : Option Json :=
    (mem0.bind (fun m => nnOpt (m.get? "organization"))) <|>
    (mem0.bind (fun m => m.get? "workspace"))
  let id1 :=
    nnOpt ((nnOpt org).bind (fun o => o.get? "uuid")) <|>
    nnOpt ((nnOpt org).bind (fun o => o.get? "id")) <|>
    nnGet data "id"
  let id2 :=
    if jsFalsyOpt id1 then
      nnGet data "organization_uuid" <|>
      nnOpt ((nnOpt (data.get? "default_organization")).bind (fun d => d.get? "uuid"))
    else id1
  if jsFalsyOpt id2 then none else id2

/-- The organization id extraction of _fetchAccount: the memberships list
is data?.memberships ?? data?.account?.memberships ?? []. -/
def resolveOrg (data : Json) : Option Json :=
  resolveOrgFrom
    ((nnGet data "memberships" <|>
      nnOpt ((nnOpt (data.get? "account")).bind (fun a => a.get? "memberships"))).getD (.arr []))
    data

/-- How one usage poll cycle ends: an error message shown via _setStatus
together with the delay passed to _scheduleNextPoll, or a successful
_applyUsageData. -/
inductive CycleOutcome where
  | errorEnd : String → Int → CycleOutcome
  | successEnd : ApplyResult → CycleOutcome

/-- _fetchUsage: on any _get error, show it and reschedule at 60 seconds;
on success run _applyUsageData (which reschedules at the adaptive
interval). -/
def usageCycle (settings : SettingsS) (st : PollState) (cred : Option String)
    (outcome : HttpOutcome) : CycleOutcome :=
  match getResult cred outcome with
  | .error e => .errorEnd e 60
  | .ok j => .successEnd (applyUsageData settings st j)

/-- How the account stage of a cycle ends: an error message plus the
60-second reschedule, or the resolved organization id with which
_fetchUsage is called. -/
inductive AccountOutcome where
  | errorEnd : String → Int → AccountOutcome
  | proceed : Json → AccountOutcome

/-- _fetchAccount: on any _get error, show it and reschedule at 60
seconds; on success resolve the organization id, rescheduling at 60
seconds when none is found. -/
def accountCycle (cred : Option String) (outcome : HttpOutcome) : AccountOutcome :=
  match getResult cred outcome with
  | .error e => .errorEnd e 60
  | .ok j =>
      match resolveOrg j with
      | some org => .proceed org
      | none => .errorEnd orgNotFoundMsg 60

/-- Whether some Schema A entry of the payload hits the session branch. -/
def touchesSession (data : Json) : Bool :=
  (entriesA data).any (fun e => testSessionA (entryTypeA e)) ||
  (quotasB data).any (fun q => testSessionB (entryTypeB q)) ||
  (jsEntries data).any (fun kv => testFiveHourC kv.1)

/-- Whether some schema step of the payload writes the weekly window. -/
def touchesWeekly (data : Json) : Bool :=
  (entriesA data).any (fun e => !testSessionA (entryTypeA e) && testWeek (entryTypeA e)) ||
  (quotasB data).any (fun q => !testSessionB (entryTypeB q) && testWeek (entryTypeB q)) ||
  (jsEntries data).any (fun kv => testWeek kv.1)

theorem any_false {α : Type} {p : α → Bool} {l : List α} (h : l.any p = false) :
    ∀ a ∈ l, p a = false := by
  intro a ha
  cases hpa : p a
  · rfl
  · exact absurd (List.any_eq_true.mpr ⟨a, ha, hpa⟩) (by simp [h])

theorem foldl_proj_eq {α β γ : Type} (f : β → α → β) (proj : β → γ) (p : α → Bool)
    (hf : ∀ st a, p a = false → proj (f st a) = proj st) :
    ∀ (l : List α) (st : β), (∀ a ∈ l, p a = false) → proj (l.foldl f st) = proj st := by
  intro l
  induction l with
  | nil => intro st _; rfl
  | cons x xs ih =>
      intro st h
      rw [List.foldl_cons, ih (f st x) (fun a ha => h a (List.mem_cons_of_mem _ ha)),
        hf st x (h x (List.mem_cons_self _ _))]

theorem applyEntryA_session_eq (st : Snapshot) (e : Json)
    (h : testSessionA (entryTypeA e) = false) :
    (applyEntryA st e).session = st.session := by
  unfold applyEntryA
  rw [if_neg (show ¬testSessionA (entryTypeA e) = true by simp [h])]
  split <;> rfl

theorem applyEntryA_weekly_eq (st : Snapshot) (e : Json)
    (h : (!testSessionA (entryTypeA e) && testWeek (entryTypeA e)) = false) :
    (applyEntryA st e).weekly = st.weekly := by
  unfold applyEntryA
  cases hs : testSessionA (entryTypeA e) with
  | true => simp [hs]
  | false =>
      simp only [hs, Bool.not_false, Bool.true_and] at h
      simp [hs, h]

theorem applyEntryB_session_eq (st : Snapshot) (q : Json)
    (h : testSessionB (entryTypeB q) = false) :
    (applyEntryB st q).session = st.session := by
  unfold applyEntryB
  rw [if_neg (show ¬testSessionB (entryTypeB q) = true by simp [h])]
  split <;> rfl

theorem applyEntryB_weekly_eq (st : Snapshot) (q : Json)
    (h : (!testSessionB (entryTypeB q) && testWeek (entryTypeB q)) = false) :
    (applyEntryB st q).weekly = st.weekly := by
  unfold applyEntryB
  cases hs : testSessionB (entryTypeB q) with
  | true => simp [hs]
  | false =>
      simp only [hs, Bool.not_false, Bool.true_and] at h
      simp [hs, h]

theorem applyEntryC_session_eq (st : Snapshot) (kv : String × Json)
    (h : testFiveHourC kv.1 = false) :
    (applyEntryC st kv).session = st.session := by
  simp only [applyEntryC]
  rw [if_neg (show ¬testFiveHourC kv.1 = true by simp [h])]
  split <;> rfl

theorem applyEntryC_weekly_eq (st : Snapshot) (kv : String × Json)
    (h : testWeek kv.1 = false) :
    (applyEntryC st kv).weekly = st.weekly := by
  simp only [applyEntryC]
  rw [if_neg (show ¬testWeek kv.1 = true by simp [h])]
  split <;> rfl

theorem schemaA_session_eq (data : Json) (st : Snapshot)
    (h : (entriesA data).any (fun e => testSessionA (entryTypeA e)) = false) :
    (schemaA data st).session = st.session :=
  foldl_proj_eq applyEntryA Snapshot.session _ applyEntryA_session_eq _ st (any_false h)

theorem schemaA_weekly_eq (data : Json) (st : Snapshot)
    (h : (entriesA data).any (fun e => !testSessionA (entryTypeA e) && testWeek (entryTypeA e)) = false) :
    (schemaA data st).weekly = st.weekly :=
  foldl_proj_eq applyEntryA Snapshot.weekly _ applyEntryA_weekly_eq _ st (any_false h)

theorem schemaB_session_eq (data : Json) (st : Snapshot)
    (h : (quotasB data).any (fun q => testSessionB (entryTypeB q)) = false) :
    (schemaB data st).session = st.session :=
  foldl_proj_eq applyEntryB Snapshot.session _ applyEntryB_session_eq _ st (any_false h)

theorem schemaB_weekly_eq (data : Json) (st : Snapshot)
    (h : (quotasB data).any (fun q => !testSessionB (entryTypeB q) && testWeek (entryTypeB q)) = false) :
    (schemaB data st).weekly = st.weekly :=
  foldl_proj_eq applyEntryB Snapshot.weekly _ applyEntryB_weekly_eq _ st (any_false h)

theorem schemaC_session_eq (data : Json) (st : Snapshot)
    (h : (jsEntries data).any (fun kv => testFiveHourC kv.1) = false) :
    (schemaC data st).session = st.session := by
  unfold schemaC
  split
  · exact foldl_proj_eq applyEntryC Snapshot.session _ applyEntryC_session_eq _ st (any_false h)
  · rfl

theorem schemaC_weekly_eq (data : Json) (st : Snapshot)
    (h : (jsEntries data).any (fun kv => testWeek kv.1) = false) :
    (schemaC data st).weekly = st.weekly := by
  unfold schemaC
  split
  · exact foldl_proj_eq applyEntryC Snapshot.weekly _ applyEntryC_weekly_eq _ st (any_false h)
  · rfl

/-- C3: the Normalizer is total — normalize is a total function on the
whole inductive type of JSON values (objects, arrays, primitives, null,
missing keys, wrong field types), so every payload yields a snapshot
without error — and a window none of whose fields is recognized by any of
the three schema passes is left at the defaults used = 0, limit = 1,
resetAt = null. -/
theorem normalize_total_defaults (data : Json) :
    (touchesSession data = false → (normalize data).session = ⟨0, 1, none⟩) ∧
    (touchesWeekly data = false → (normalize data).weekly = ⟨0, 1, none⟩) := by
  constructor
  · intro h
    simp only [touchesSession, Bool.or_eq_false_iff] at h
    obtain ⟨⟨hA, hB⟩, hC⟩ := h
    unfold normalize
    rw [schemaC_session_eq _ _ hC, schemaB_session_eq _ _ hB, schemaA_session_eq _ _ hA]
    rfl
  · intro h
    simp only [touchesWeekly, Bool.or_eq_false_iff] at h
    obtain ⟨⟨hA, hB⟩, hC⟩ := h
    unfold normalize
    rw [schemaC_weekly_eq _ _ hC, schemaB_weekly_eq _ _ hB, schemaA_weekly_eq _ _ hA]
    rfl

/-- C3 witness: a payload with no recognizable fields leaves both windows
at the defaults. -/
theorem normalize_total_defaults_witness :
    touchesSession (Json.obj [("hello", Json.num 7)]) = false ∧
    (normalize (Json.obj [("hello", Json.num 7)])).session = ⟨0, 1, none⟩ ∧
    touchesWeekly (Json.obj [("hello", Json.num 7)]) = false ∧
    (normalize (Json.obj [("hello", Json.num 7)])).weekly = ⟨0, 1, none⟩ :=
  ⟨rfl, (normalize_total_defaults _).1 rfl, rfl, (normalize_total_defaults _).2 rfl⟩

/-- A payload that matches Schema A for the Session window and carries
Weekly data only as Schema C flat keys. -/
def payloadC1 : Json :=
  .obj [("rate_limit_status", .obj [("a", .obj
          [("type", .str "window5Hour"),
           ("remaining", .num 152000),
           ("total", .num 200000)])]),
        ("token_week_used", .num 300),
        ("token_week_limit", .num 1000)]

/-- C1 counterexample: on payloadC1, Schema A fills the Session window
(48000 of 200000), but because the Schema C pass only runs when the
session limit is still at most 1, the Weekly flat keys token_week_used =
300 and token_week_limit = 1000 are never read and the Weekly window stays
at its defaults — the claim demands correct non-default values for both
windows. -/
theorem normalize_schemaC_skipped_counterexample :
    (normalize payloadC1).session.used = 48000 ∧
    (normalize payloadC1).session.limit = 200000 ∧
    (normalize payloadC1).weekly.used = 0 ∧
    (normalize payloadC1).weekly.limit = 1 ∧
    ¬((normalize payloadC1).weekly.used = 300 ∧ (normalize payloadC1).weekly.limit = 1000) := by
  decide

/-- C1 amended: the three schema passes run in the fixed order A, B, C,
but Schema C runs only when the Session limit is still at most 1 after A
and B; when Schema A (or B) has set a session limit above 1, the Schema C
pass is skipped entirely, so such a payload yields correct Session values
while the Weekly window keeps whatever A and B produced (its defaults when
they never matched it). -/
theorem normalize_schemaC_only_when_session_default (data : Json)
    (h : 1 < (schemaB data (schemaA data initSnap)).session.limit) :
    normalize data = schemaB data (schemaA data initSnap) := by
  unfold normalize schemaC
  rw [if_neg (by omega)]

/-- C1 witness: on payloadC1 the session limit after Schemas A and B is
200000, so the whole normalization is just the A and B passes. -/
theorem normalize_schemaC_only_when_session_default_witness :
    1 < (schemaB payloadC1 (schemaA payloadC1 initSnap)).session.limit ∧
    normalize payloadC1 = schemaB payloadC1 (schemaA payloadC1 initSnap) :=
  ⟨by decide, normalize_schemaC_only_when_session_default payloadC1 (by decide)⟩

/-- A Schema A payload whose entry has remaining greater than the (absent,
hence 0) total. -/
def payloadC2 : Json :=
  .obj [("rate_limit_status", .obj [("a", .obj
          [("type", .str "window"), ("remaining", .num 5)])])]

/-- C2 counterexample: on payloadC2 the Schema A entry matches the session
pattern with total defaulting to 0 and remaining 5, so used = 0 - 5 = -5
and limit = 0 — the produced window violates both used >= 0 and
limit > 0. -/
theorem normalize_invariant_counterexample :
    (normalize payloadC2).session.used = -5 ∧
    (normalize payloadC2).session.limit = 0 ∧
    ¬(0 ≤ (normalize payloadC2).session.used ∧ 0 < (normalize payloadC2).session.limit) := by
  decide

/-- C2 amended: the windows default to used = 0, limit = 1, but schema
extraction does not enforce the invariants — used may be negative (when
remaining exceeds total) and limit may be nonpositive (when the total
field is missing or nonpositive); what does hold for every JSON input is
the percentage clause: the rendered percentage is 0 whenever the window
limit is not positive. -/
theorem pct_zero_when_limit_nonpos (data : Json) :
    (¬0 < (normalize data).session.limit → sessionPct data = 0) ∧
    (¬0 < (normalize data).weekly.limit → weeklyPct data = 0) :=
  ⟨fun h => by simp [sessionPct, pctOf, h], fun h => by simp [weeklyPct, pctOf, h]⟩

/-- C2 witness: on payloadC2 the session limit is 0 and the session
percentage is rendered as 0. -/
theorem pct_zero_when_limit_nonpos_witness :
    ¬0 < (normalize payloadC2).session.limit ∧ sessionPct payloadC2 = 0 :=
  ⟨by decide, (pct_zero_when_limit_nonpos payloadC2).1 (by decide)⟩

/-- The Schema A scenario payload of the spec. -/
def payloadC4 : Json :=
  .obj [("rate_limit_status", .obj [("a", .obj
          [("type", .str "window5Hour"),
           ("remaining", .num 152000),
           ("total", .num 200000),
           ("resetsAt", .str "2024-01-01T00:00:00Z")])])]

/-- C4: a Schema A entry matching the 5-hour/window pattern yields
used = total - remaining with the alias chains of the source, and resetAt
from its alias chain; on the scenario payload the Session window is
48000 used of 200000 with resetAt 2024-01-01T00:00:00Z. -/
theorem schemaA_scenario_five_hour :
    (∀ (st : Snapshot) (e : Json), testSessionA (entryTypeA e) = true →
        (applyEntryA st e).session = ⟨entryTotA e - entryRemA e, entryTotA e, entryResetA e⟩) ∧
    (normalize payloadC4).session.used = 48000 ∧
    (normalize payloadC4).session.limit = 200000 ∧
    (normalize payloadC4).session.resetAt = some (Json.str "2024-01-01T00:00:00Z") :=
  ⟨fun st e h => by simp [applyEntryA, h, entryUsedA], by decide, by decide, rfl⟩

/-- The account scenario payload of the spec. -/
def payloadC5scenario : Json :=
  .obj [("memberships", .arr [.obj [("organization", .obj [("uuid", .str "org-1")])]])]

/-- A payload whose top-level memberships list is present but empty while
the account-nested memberships list holds an organization uuid. -/
def payloadC5cex : Json :=
  .obj [("memberships", .arr []),
        ("account", .obj [("memberships",
          .arr [.obj [("organization", .obj [("uuid", .str "X")])]])])]

/-- C5 counterexample: on payloadC5cex the claimed first-non-null order
would fall through to the account-nested memberships list and resolve X,
but the source chooses the memberships list with a nullish-coalescing
chain, so the present-but-empty top-level list preempts the account one
and resolution fails — even though the account-nested list, had it been
consulted, resolves to X. -/
theorem resolveOrg_account_list_counterexample :
    resolveOrg payloadC5cex = none ∧
    resolveOrgFrom (Json.arr [Json.obj [("organization", Json.obj [("uuid", Json.str "X")])]])
        payloadC5cex = some (Json.str "X") :=
  ⟨rfl, rfl⟩

/-- C5 amended: the account-nested memberships list is consulted only when
the top-level memberships key is null or absent — a present top-level
value (even an empty list) fixes the list; within the chosen list the
extraction proceeds first-non-null through memberships[0].organization
then .workspace, org.uuid then org.id, top-level id, organization_uuid,
default_organization.uuid (with falsy identifiers treated as unresolved);
the scenario payload resolves to org-1. -/
theorem resolveOrg_priority :
    (∀ (data m : Json), nnGet data "memberships" = some m →
        resolveOrg data = resolveOrgFrom m data) ∧
    resolveOrg payloadC5scenario = some (Json.str "org-1") := by
  constructor
  · intro data m h
    unfold resolveOrg
    rw [h]
    rfl
  · rfl

/-- C5 witness: the top-level empty list of payloadC5cex is the one the
extraction runs on. -/
theorem resolveOrg_priority_witness :
    resolveOrg payloadC5cex = resolveOrgFrom (Json.arr []) payloadC5cex :=
  resolveOrg_priority.1 payloadC5cex (Json.arr []) rfl

/-- A Schema B payload reporting 5000 session tokens used. -/
def payloadC6 : Json :=
  .obj [("quotas", .arr [.obj
          [("window", .str "5hour"), ("used", .num 5000), ("limit", .num 200000)]])]

/-- C6: after a successful usage fetch the new used counters are compared
with the stored ones — if either strictly increased the next delay is the
configured active interval, otherwise (unchanged or decreased) the idle
interval — and the new counters are stored for the next comparison. -/
theorem scheduler_adaptive_interval (settings : SettingsS) (st : PollState) (data : Json) :
    (st.lastSessionUsed < (normalize data).session.used ∨
        st.lastWeeklyUsed < (normalize data).weekly.used →
      (applyUsageData settings st data).nextInterval = settings.pollIntervalActive) ∧
    ((normalize data).session.used ≤ st.lastSessionUsed ∧
        (normalize data).weekly.used ≤ st.lastWeeklyUsed →
      (applyUsageData settings st data).nextInterval = settings.pollIntervalIdle) ∧
    (applyUsageData settings st data).newState.lastSessionUsed = (normalize data).session.used ∧
    (applyUsageData settings st data).newState.lastWeeklyUsed = (normalize data).weekly.used := by
  refine ⟨fun h => ?_, fun h => ?_, rfl, rfl⟩
  · unfold applyUsageData
    rcases h with h | h <;> simp [h]
  · unfold applyUsageData
    simp [not_lt.mpr h.1, not_lt.mpr h.2]

/-- C6 witness: with stored counters (1000, 0) and a payload reporting
5000 session tokens used, the scheduler picks the active interval (60
here, against an idle interval of 600). -/
theorem scheduler_adaptive_interval_witness :
    (1000 : Int) < (normalize payloadC6).session.used ∧
    (applyUsageData ⟨true, 600, 60⟩ ⟨1000, 0⟩ payloadC6).nextInterval = 60 :=
  ⟨by decide, (scheduler_adaptive_interval ⟨true, 600, 60⟩ ⟨1000, 0⟩ payloadC6).1
    (Or.inl (by decide))⟩

/-- C7: every failed cycle — credential missing, HTTP auth failure or
error status, invalid JSON, network error as classified by _get, or an
unresolvable organization id — short-circuits with its human-readable
message and reschedules at the fixed 60-second backoff, for every
configured pair of intervals; HTTP 403 in particular ends a usage cycle
with the authentication-failure message and a 60-second reschedule. -/
theorem error_cycle_backoff_60 :
    (∀ (settings : SettingsS) (st : PollState) (cred : Option String)
        (outcome : HttpOutcome) (e : String),
        getResult cred outcome = .error e →
        usageCycle settings st cred outcome = .errorEnd e 60) ∧
    (∀ (cred : Option String) (outcome : HttpOutcome) (e : String),
        getResult cred outcome = .error e →
        accountCycle cred outcome = .errorEnd e 60) ∧
    (∀ (cred : Option String) (outcome : HttpOutcome) (j : Json),
        getResult cred outcome = .ok j → resolveOrg j = none →
        accountCycle cred outcome = .errorEnd orgNotFoundMsg 60) ∧
    (∀ (settings : SettingsS) (st : PollState) (cred : Option String) (b : HttpBody),
        requestIssued cred = true →
        usageCycle settings st cred (.response 403 b) = .errorEnd authFailedMsg 60) := by
  refine ⟨?_, ?_, ?_, ?_⟩
  · intro settings st cred outcome e h
    unfold usageCycle
    rw [h]
  · intro cred outcome e h
    unfold accountCycle
    rw [h]
  · intro cred outcome j h hn
    simp only [accountCycle, h, hn]
  · intro settings st cred b h
    obtain ⟨k, hk⟩ := Option.isSome_iff_exists.mp h
    unfold usageCycle getResult
    rw [hk]
    simp [classifyResponse]

/-- C7 witness: HTTP 403 with a configured credential ends the usage cycle
with the authentication-failure message and a 60-second reschedule. -/
theorem error_cycle_backoff_60_witness :
    usageCycle ⟨true, 600, 60⟩ ⟨0, 0⟩ (some "tok") (.response 403 .invalid) =
      .errorEnd authFailedMsg 60 :=
  error_cycle_backoff_60.2.2.2 ⟨true, 600, 60⟩ ⟨0, 0⟩ (some "tok") .invalid rfl

/-- C8: with an empty or absent credential, _get fails immediately with
the no-credential message and never reaches the network call, whatever the
network would have answered. -/
theorem no_credential_no_request (cred : Option String) (outcome : HttpOutcome)
    (h : jsTrim (cred.getD "") = "") :
    requestIssued cred = false ∧ getResult cred outcome = .error noCredMsg := by
  have hc : cookieHeader cred = none := by simp [cookieHeader, h]
  constructor
  · simp [requestIssued, hc]
  · unfold getResult
    rw [hc]

/-- C8 witness: the absent credential fails with the no-credential message
independently of the network outcome. -/
theorem no_credential_no_request_witness :
    jsTrim ((none : Option String).getD "") = "" ∧
    requestIssued none = false ∧
    getResult none (.networkError "boom") = .error noCredMsg :=
  ⟨rfl, (no_credential_no_request none (.networkError "boom") rfl).1,
    (no_credential_no_request none (.networkError "boom") rfl).2⟩

/-- C9: _safeInt returns 0 for null, undefined and non-numeric strings,
and the parsed leading integer for numeric inputs — 123 for the string
123, the number 123, and the string 123.7. -/
theorem safeInt_spec_values :
    safeIntOpt none = 0 ∧
    safeInt Json.null = 0 ∧
    safeInt (Json.str "abc") = 0 ∧
    safeInt (Json.str "NaN") = 0 ∧
    safeInt (Json.str "") = 0 ∧
    safeInt (Json.str "123") = 123 ∧
    safeInt (Json.num 123) = 123 ∧
    safeInt (Json.str "123.7") = 123 := by
  decide

/-- The entry whose window-kind string matches both the session and the
weekly patterns. -/
def entryC10 : Json :=
  .obj [("type", .str "weekly_window"), ("remaining", .num 152000), ("total", .num 200000)]

/-- C10: in Schemas A and B the session pattern is tested before the
weekly pattern in an exclusive if/else-if, so an entry matching the
session pattern never writes the Weekly window — in particular the type
weekly_window, which matches both patterns, is assigned to Session. -/
theorem session_pattern_tested_first :
    (∀ (st : Snapshot) (e : Json), testSessionA (entryTypeA e) = true →
        (applyEntryA st e).weekly = st.weekly ∧
        (applyEntryA st e).session = ⟨entryUsedA e, entryTotA e, entryResetA e⟩) ∧
    (∀ (st : Snapshot) (q : Json), testSessionB (entryTypeB q) = true →
        (applyEntryB st q).weekly = st.weekly ∧
        (applyEntryB st q).session = ⟨entryUsedB q, entryLimitB q, entryResetB q⟩) ∧
    testSessionA "weekly_window" = true ∧
    testWeek "weekly_window" = true ∧
    testSessionB "weekly_window" = true :=
  ⟨fun st e h => by simp [applyEntryA, h],
   fun st q h => by simp [applyEntryB, h],
   by decide, by decide, by decide⟩

/-- C10 witness: the entry of type weekly_window updates the Session
window (to 48000 of 200000) and leaves the Weekly window untouched. -/
theorem session_pattern_tested_first_witness :
    (applyEntryA initSnap entryC10).weekly = initSnap.weekly ∧
    (applyEntryA initSnap entryC10).session =
      ⟨entryUsedA entryC10, entryTotA entryC10, entryResetA entryC10⟩ ∧
    (applyEntryA initSnap entryC10).session.used = 48000 :=
  ⟨(session_pattern_tested_first.1 initSnap entryC10 (by decide)).1,
   (session_pattern_tested_first.1 initSnap entryC10 (by decide)).2,
   by decide⟩

end ClaudeTokens
